import Mathlib

/-!
Verification of the aether-config repository: a shallow embedding of the
in-memory versioned configuration store (`aether_config/storage.py`), the
config manager with its watcher fan-out (`aether_config/core.py`), and the
simplified consensus node (`aether_config/consensus.py`), together with
theorems settling the specification claims about them.
-/

/-! ## Data model (`aether_config/core.py`) -/

/-- Model of `ConfigSchema` from `core.py`: an immutable configuration record.
The Python `data` field is an opaque JSON-like document; it is embedded as an
association list of string keys to string values, which suffices for every
claim (the code never inspects `data`). -/
structure ConfigSchema where
  name : String
  version : Int
  data : List (String × String)
  created_at : Nat
deriving DecidableEq, Repr

/-! ## A model of Python `dict` as an insertion-ordered association list -/

/-- Lookup in a Python dict: first (unique) binding for the key. -/
def dictLookup {α : Type} (d : List (String × α)) (k : String) : Option α :=
  match d with
  | [] => none
  | (k', v) :: rest => if k' = k then some v else dictLookup rest k

/-- Assignment `d[k] = v` on a Python dict: update the binding in place if the key is
present, otherwise append a new binding at the end. -/
def dictInsert {α : Type} (d : List (String × α)) (k : String) (v : α) :
    List (String × α) :=
  match d with
  | [] => [(k, v)]
  | (k', v') :: rest =>
      if k' = k then (k, v) :: rest else (k', v') :: dictInsert rest k v

theorem dictLookup_dictInsert_self {α : Type} (d : List (String × α))
    (k : String) (v : α) : dictLookup (dictInsert d k v) k = some v := by
  induction d with
  | nil => simp [dictInsert, dictLookup]
  | cons hd tl ih =>
      obtain ⟨k', v'⟩ := hd
      by_cases h : k' = k
      · simp [dictInsert, dictLookup, h]
      · simp [dictInsert, dictLookup, h, ih]

theorem dictLookup_dictInsert_ne {α : Type} (d : List (String × α))
    (k k' : String) (v : α) (h : k ≠ k') :
    dictLookup (dictInsert d k v) k' = dictLookup d k' := by
  induction d with
  | nil => simp [dictInsert, dictLookup, h]
  | cons hd tl ih =>
      obtain ⟨k₀, v₀⟩ := hd
      by_cases h₀ : k₀ = k
      · subst h₀
        simp [dictInsert, dictLookup, h]
      · simp [dictInsert, dictLookup, h₀, ih]

/-! ## `InMemoryStorage` (`aether_config/storage.py`) -/

/-- The `_configs` field of `InMemoryStorage`: a Python dict from
configuration name to the list of saved records. -/
abbrev Storage : Type := List (String × List ConfigSchema)

/-- A fresh `InMemoryStorage()` has an empty `_configs` dict. -/
def Storage.empty : Storage := []

/-- The list stored for `name` (`self._configs[name]`), the empty list when
the key is absent. -/
def storeList (s : Storage) (name : String) : List ConfigSchema :=
  (dictLookup s name).getD []

/-- Errors raised by the storage layer: `KeyError` (the not-found failure)
and the `IndexError` Python raises on an out-of-range negative list index. -/
inductive StoreErr where
  | notFound
  | indexError
deriving DecidableEq, Repr

/-- Python list indexing `l[i]` for an `int` index: non-negative indexes from
the front, negative indexes from the end, out-of-range raises `IndexError`. -/
def pyIndex {α : Type} (l : List α) (i : Int) : Except StoreErr α :=
  if 0 ≤ i then
    match l.get? i.toNat with
    | some a => Except.ok a
    | none => Except.error StoreErr.indexError
  else
    let j : Int := (l.length : Int) + i
    if 0 ≤ j then
      match l.get? j.toNat with
      | some a => Except.ok a
      | none => Except.error StoreErr.indexError
    else Except.error StoreErr.indexError

/-- Model of `InMemoryStorage.save_config`: ensure the per-name list exists, append
the record, return `True`. -/
def save_config (s : Storage) (c : ConfigSchema) : Storage × Bool :=
  (dictInsert s c.name (storeList s c.name ++ [c]), true)

/-- Model of `InMemoryStorage.get_latest_config`: `KeyError` when the name is absent
or its list is empty, otherwise the last element (`[-1]`). -/
def get_latest_config (s : Storage) (name : String) :
    Except StoreErr ConfigSchema :=
  match dictLookup s name with
  | none => Except.error StoreErr.notFound
  | some l =>
      match l.getLast? with
      | none => Except.error StoreErr.notFound
      | some c => Except.ok c

/-- Model of `InMemoryStorage.get_config_by_version`: `KeyError` when the name is
absent or `version >= len(list)`; otherwise Python list indexing, which
admits negative indices. -/
def get_config_by_version (s : Storage) (name : String) (version : Int) :
    Except StoreErr ConfigSchema :=
  match dictLookup s name with
  | none => Except.error StoreErr.notFound
  | some l =>
      if (l.length : Int) ≤ version then Except.error StoreErr.notFound
      else pyIndex l version

/-- Model of `InMemoryStorage.list_config_versions`: `range(len(list))`, empty when
the name is unknown. -/
def list_config_versions (s : Storage) (name : String) : List Nat :=
  match dictLookup s name with
  | none => []
  | some l => List.range l.length

/-- Fold a sequence of `save_config` calls over a store. -/
def saveMany (s : Storage) (cs : List ConfigSchema) : Storage :=
  cs.foldl (fun st c => (save_config st c).1) s

theorem storeList_save (s : Storage) (c : ConfigSchema) (name : String) :
    storeList (save_config s c).1 name =
      if c.name = name then storeList s name ++ [c] else storeList s name := by
  by_cases h : c.name = name
  · simp [save_config, storeList, h, dictLookup_dictInsert_self]
  · simp [save_config, storeList, h, dictLookup_dictInsert_ne _ _ _ _ h]

theorem list_config_versions_eq_range (s : Storage) (name : String) :
    list_config_versions s name = List.range (storeList s name).length := by
  unfold list_config_versions storeList
  cases dictLookup s name <;> simp

theorem storeList_saveMany (s : Storage) (cs : List ConfigSchema)
    (name : String) (h : ∀ c ∈ cs, c.name = name) :
    storeList (saveMany s cs) name = storeList s name ++ cs := by
  induction cs generalizing s with
  | nil => simp [saveMany]
  | cons hd tl ih =>
      have hhd : hd.name = name := h hd (List.mem_cons_self _ _)
      have htl : ∀ c ∈ tl, c.name = name := fun c hc => h c (List.mem_cons_of_mem _ hc)
      show storeList (saveMany (save_config s hd).1 tl) name = _
      rw [ih _ htl, storeList_save, if_pos hhd]
      simp

/-! ## `ConsensusNode` (`aether_config/consensus.py`) -/

/-- Model of `NodeRole` from `consensus.py`. -/
inductive NodeRole where
  | leader
  | follower
  | candidate
deriving DecidableEq, Repr

/-- The mutable state of `ConsensusNode` relevant to the claims.  The
timing fields (`election_timeout`, `heartbeat_interval`, `last_heartbeat`)
and the asyncio locks carry no protocol state and are omitted; the storage
backend is threaded separately as a `Storage` value. -/
structure ConsensusNode where
  node_id : String
  peers : List String
  role : NodeRole
  current_term : Nat
  voted_for : Option String
  leader_id : Option String
  commit_index : Nat
  last_applied : Nat
deriving DecidableEq, Repr

/-- Model of `ConsensusNode.__init__`: Follower, term 0, no vote, no known leader;
`peers` becomes `set(peers)`, modelled by deduplication (vote counting uses
only the set's size). -/
def ConsensusNode.init (node_id : String) (peers : List String) :
    ConsensusNode :=
  { node_id := node_id
    peers := peers.dedup
    role := NodeRole.follower
    current_term := 0
    voted_for := none
    leader_id := none
    commit_index := 0
    last_applied := 0 }

/-- Model of `ConsensusNode._request_vote`: the stubbed transport always grants. -/
def _request_vote (_peer : String) : Bool := true

/-- The vote requests `_trigger_election` issues: one per peer. -/
def voteRequests (n : ConsensusNode) : List String := n.peers

/-- First half of `_trigger_election` (under `state_lock`): increment the
term, become Candidate, vote for self. -/
def electionStart (n : ConsensusNode) : ConsensusNode :=
  { n with
    current_term := n.current_term + 1
    role := NodeRole.candidate
    voted_for := some n.node_id }

/-- Second half of `_trigger_election`: gather the vote results, count the
grants, and on `votes_received > len(peers) // 2` become Leader and record
self as leader.  The self-vote is not counted. -/
def tallyVotes (n : ConsensusNode) : ConsensusNode :=
  let results := (voteRequests n).map _request_vote
  let votes_received := (results.filter id).length
  if n.peers.length / 2 < votes_received then
    { n with role := NodeRole.leader, leader_id := some n.node_id }
  else n

/-- Model of `ConsensusNode._trigger_election`, end to end. -/
def _trigger_election (n : ConsensusNode) : ConsensusNode :=
  tallyVotes (electionStart n)

/-- One expiry of the election timer loop in `_start_election_timer`:
trigger an election only when the role is still Follower. -/
def electionTick (n : ConsensusNode) : ConsensusNode :=
  if n.role = NodeRole.follower then _trigger_election n else n

/-- Model of `ConsensusNode.propose_config` specialised to `InMemoryStorage`
(whose `save_config` cannot raise): refuse unless Leader, else save. -/
def propose_config (n : ConsensusNode) (s : Storage) (c : ConfigSchema) :
    Storage × Bool :=
  if n.role ≠ NodeRole.leader then (s, false)
  else ((save_config s c).1, true)

/-- Model of `ConsensusNode.apply_config` specialised to `InMemoryStorage`:
save unconditionally. -/
def apply_config (s : Storage) (c : ConfigSchema) : Storage × Bool :=
  ((save_config s c).1, true)

/-- Model of `ConsensusNode.propose_config` over an arbitrary storage backend whose
`save_config` may raise (`Except.error`): the `try/except Exception`
wrapper turns a raise into the return value `False` and leaves the backend
state as the failed save left it observable to the caller — in the Python
code the exception aborts the save, so the pre-save state is returned. -/
def propose_configAbs {σ ε : Type} (backendSave : σ → ConfigSchema → Except ε σ)
    (n : ConsensusNode) (st : σ) (c : ConfigSchema) : σ × Bool :=
  if n.role ≠ NodeRole.leader then (st, false)
  else
    match backendSave st c with
    | Except.ok st' => (st', true)
    | Except.error _ => (st, false)

/-- Model of `ConsensusNode.apply_config` over an arbitrary fallible backend. -/
def apply_configAbs {σ ε : Type} (backendSave : σ → ConfigSchema → Except ε σ)
    (st : σ) (c : ConfigSchema) : σ × Bool :=
  match backendSave st c with
  | Except.ok st' => (st', true)
  | Except.error _ => (st, false)

/-- The operations of `ConsensusNode` named by the spec's term-monotonicity
claim, as one transition function on `(node, store)` state.  `start` runs
the election-timer loop, so a `start` step is an `electionTick`;
`sendHeartbeat` is the no-op heartbeat stub. -/
inductive NodeOp where
  | electionTick
  | triggerElection
  | sendHeartbeat
  | propose (c : ConfigSchema)
  | applyC (c : ConfigSchema)

/-- Run one `ConsensusNode` operation. -/
def runOp (n : ConsensusNode) (s : Storage) : NodeOp → ConsensusNode × Storage
  | NodeOp.electionTick => (electionTick n, s)
  | NodeOp.triggerElection => (_trigger_election n, s)
  | NodeOp.sendHeartbeat => (n, s)
  | NodeOp.propose c => (n, (propose_config n s c).1)
  | NodeOp.applyC c => (n, (apply_config s c).1)

theorem tallyVotes_current_term (n : ConsensusNode) :
    (tallyVotes n).current_term = n.current_term := by
  unfold tallyVotes
  by_cases h : n.peers.length / 2 < (((voteRequests n).map _request_vote).filter id).length
  · simp [h]
  · simp [h]

/-! ## `ConfigManager` (`aether_config/core.py`) -/

/-- A watcher queue (`asyncio.Queue` holding `ConfigSchema` items, FIFO):
`put` appends at the back. -/
abbrev WatchQueue : Type := List ConfigSchema

/-- Model of the `ConfigManager` state: the storage backend plus `_watchers`, a Python
dict from name to the list of subscriber queues. -/
structure ConfigManager where
  storage : Storage
  _watchers : List (String × List WatchQueue)
deriving DecidableEq

/-- Constructor `ConfigManager(storage_backend)`. -/
def ConfigManager.init (s : Storage) : ConfigManager :=
  { storage := s, _watchers := [] }

/-- The queue list registered for `name`, empty when absent. -/
def watchersOf (m : ConfigManager) (name : String) : List WatchQueue :=
  (dictLookup m._watchers name).getD []

/-- Model of `ConfigManager.watch_config`: ensure the per-name list exists, append a
fresh empty queue, and return it.  The returned handle is the queue's index
in the per-name list (stable: `set_config` maps queues in place). -/
def watch_config (m : ConfigManager) (name : String) : ConfigManager × Nat :=
  let qs := watchersOf m name
  ({ m with _watchers := dictInsert m._watchers name (qs ++ [[]]) }, qs.length)

/-- Model of `ConfigManager.set_config`: save to storage, then `put` the schema on
every queue registered for its name (no-op when the name has no entry in
`_watchers`); returns `True` (`InMemoryStorage.save_config` cannot raise,
so the `RuntimeError` branch is unreachable). -/
def set_config (m : ConfigManager) (c : ConfigSchema) : ConfigManager × Bool :=
  let s' := (save_config m.storage c).1
  let w' :=
    match dictLookup m._watchers c.name with
    | none => m._watchers
    | some qs => dictInsert m._watchers c.name (qs.map (fun q => q ++ [c]))
  ({ storage := s', _watchers := w' }, true)

/-- Fold a sequence of `set_config` calls over a manager. -/
def setMany (m : ConfigManager) (cs : List ConfigSchema) : ConfigManager :=
  cs.foldl (fun st c => (set_config st c).1) m

/-- The queue at index `i` among the subscribers for `name`. -/
def queueAt (m : ConfigManager) (name : String) (i : Nat) : Option WatchQueue :=
  (watchersOf m name).get? i

theorem watchersOf_set (m : ConfigManager) (c : ConfigSchema) (name : String) :
    watchersOf (set_config m c).1 name =
      if c.name = name then (watchersOf m name).map (fun q => q ++ [c])
      else watchersOf m name := by
  unfold set_config watchersOf
  by_cases h : c.name = name
  · subst h
    cases hq : dictLookup m._watchers c.name with
    | none => simp [hq]
    | some qs => simp [hq, dictLookup_dictInsert_self]
  · cases hq : dictLookup m._watchers c.name with
    | none => simp [hq, h]
    | some qs => simp [hq, h, dictLookup_dictInsert_ne _ _ _ _ h]

theorem queueAt_set (m : ConfigManager) (c : ConfigSchema) (name : String)
    (i : Nat) (q : WatchQueue) (h : queueAt m name i = some q) :
    queueAt (set_config m c).1 name i =
      some (if c.name = name then q ++ [c] else q) := by
  unfold queueAt at h ⊢
  rw [List.get?_eq_getElem?] at h
  rw [watchersOf_set]
  by_cases hc : c.name = name
  · simp [hc, List.getElem?_map, h]
  · simp [hc, h]

theorem queueAt_setMany (m : ConfigManager) (cs : List ConfigSchema)
    (name : String) (i : Nat) (q : WatchQueue)
    (h : queueAt m name i = some q) :
    queueAt (setMany m cs) name i =
      some (q ++ cs.filter (fun c => c.name == name)) := by
  induction cs generalizing m q with
  | nil => simpa [setMany]
  | cons hd tl ih =>
      show queueAt (setMany (set_config m hd).1 tl) name i = _
      by_cases hc : hd.name = name
      · have step := queueAt_set m hd name i q h
        rw [if_pos hc] at step
        rw [ih _ _ step]
        simp [List.filter_cons, hc]
      · have step := queueAt_set m hd name i q h
        rw [if_neg hc] at step
        rw [ih _ _ step]
        simp [List.filter_cons, hc]

theorem queueAt_watch (m : ConfigManager) (name : String) :
    queueAt (watch_config m name).1 name (watch_config m name).2 =
      some [] := by
  unfold queueAt watch_config watchersOf
  simp [dictLookup_dictInsert_self]

/-! ## Concrete fixtures used by counterexamples and witnesses -/

/-- The record `("db", {"host": "a"})` of the spec's scenario, at version 0. -/
def cA : ConfigSchema := { name := "db", version := 0, data := [("host", "a")], created_at := 0 }

/-- The record `("db", {"host": "b"})` of the spec's scenario, at version 1. -/
def cB : ConfigSchema := { name := "db", version := 1, data := [("host", "b")], created_at := 1 }

/-- A throwaway record used by witnesses. -/
def cDemo : ConfigSchema := { name := "demo", version := 0, data := [], created_at := 0 }

/-- A store holding exactly one record for `"db"`. -/
def s_db : Storage := (save_config Storage.empty cA).1

/-! ## Claim theorems -/

/-- Claim C4: propose called on a node whose role is not Leader fails (the
`NotLeader` failure is surfaced as the return value `False`) and performs no
store mutation: the versioned store is exactly the same after the call. -/
theorem C4_propose_not_leader (n : ConsensusNode) (s : Storage)
    (c : ConfigSchema) (h : n.role ≠ NodeRole.leader) :
    propose_config n s c = (s, false) := by
  simp [propose_config, h]

/-- Witness for C4 at a freshly initialised Follower node. -/
theorem C4_propose_not_leader_witness :
    (ConsensusNode.init "n1" ["n2"]).role ≠ NodeRole.leader ∧
    propose_config (ConsensusNode.init "n1" ["n2"]) Storage.empty cDemo =
      (Storage.empty, false) :=
  ⟨by decide, C4_propose_not_leader _ _ _ (by decide)⟩

/-- Counterexample to claim C5: `apply_config` is not idempotent — applying
the same `ConfigVersion` twice to an empty store leaves a different store
than applying it once (the record is appended twice), and a second document
at the same `(name, version)` pair is appended with result `True` instead of
failing with `Conflict`. -/
theorem C5_counterexample :
    (apply_config (apply_config Storage.empty cA).1 cA).1 ≠
        (apply_config Storage.empty cA).1 ∧
    apply_config (apply_config Storage.empty cA).1
        { cA with data := [("host", "z")] } =
      ((dictInsert Storage.empty "db" [cA, { cA with data := [("host", "z")] }]), true) := by
  constructor
  · decide
  · decide

/-- Claim C5 as amended: `apply_config` unconditionally appends the version
to the local store and returns `True`; applying the same version twice
appends two identical records (not idempotent), and a different document at
the same `(name, version)` pair never raises `Conflict` — it is appended
alongside the existing record. -/
theorem C5_apply_appends (s : Storage) (c : ConfigSchema) :
    (apply_config s c).2 = true ∧
    storeList (apply_config s c).1 c.name = storeList s c.name ++ [c] ∧
    storeList (apply_config (apply_config s c).1 c).1 c.name =
      storeList s c.name ++ [c, c] := by
  refine ⟨rfl, ?_, ?_⟩
  · unfold apply_config
    rw [storeList_save, if_pos rfl]
  · unfold apply_config
    rw [storeList_save, if_pos rfl, storeList_save, if_pos rfl]
    simp

/-- Claim C6: appending `("db", {"host":"a"})` then `("db", {"host":"b"})`
to an empty store yields `listVersions("db") = [0, 1]` and
`getLatest("db").data = {"host":"b"}`; and for every sequence of appends to
one name from an empty store the listed versions are `[0, 1, ..., n-1]`
(exactly `List.range n`: strictly increasing by 1, no gaps, no duplicates). -/
theorem C6_version_sequence (cs : List ConfigSchema) (name : String)
    (h : ∀ c ∈ cs, c.name = name) :
    (list_config_versions (save_config s_db cB).1 "db" = [0, 1] ∧
      Except.map ConfigSchema.data (get_latest_config (save_config s_db cB).1 "db") =
        Except.ok [("host", "b")]) ∧
    list_config_versions (saveMany Storage.empty cs) name =
      List.range cs.length := by
  refine ⟨⟨by decide, by rfl⟩, ?_⟩
  rw [list_config_versions_eq_range, storeList_saveMany _ _ _ h]
  simp [storeList, Storage.empty, dictLookup]

/-- Witness for C6 with two concrete appends to the name `"x"`. -/
theorem C6_version_sequence_witness :
    (∀ c ∈ [{ cDemo with name := "x" }, { cDemo with name := "x", version := 7 }], ConfigSchema.name c = "x") ∧
    ((list_config_versions (save_config s_db cB).1 "db" = [0, 1] ∧
      Except.map ConfigSchema.data (get_latest_config (save_config s_db cB).1 "db") =
        Except.ok [("host", "b")]) ∧
     list_config_versions
        (saveMany Storage.empty
          [{ cDemo with name := "x" }, { cDemo with name := "x", version := 7 }]) "x" =
       List.range
        ([{ cDemo with name := "x" }, { cDemo with name := "x", version := 7 }] : List ConfigSchema).length) :=
  ⟨by decide, C6_version_sequence _ _ (by decide)⟩

/-- Counterexample to claim C7: `version = -1` is a version with no stored
record (the store for `"db"` holds exactly version 0), yet
`get_config_by_version` does not fail with `NotFound` — the guard only
checks `version >= len`, so Python's negative indexing returns the last
stored record. -/
theorem C7_counterexample :
    list_config_versions s_db "db" = [0] ∧
    get_config_by_version s_db "db" (-1) ≠ Except.error StoreErr.notFound ∧
    get_config_by_version s_db "db" (-1) = Except.ok cA := by
  refine ⟨by decide, ?_, by rfl⟩
  intro h
  simp [s_db, save_config, Storage.empty, cA, storeList, dictLookup,
    get_config_by_version, dictInsert, pyIndex] at h

/-- Claim C7 as amended: for every name with no stored versions,
`get_latest_config` fails with `NotFound`; and for every non-negative
version with no record stored at it — that is, every version at least the
number of stored records — `get_config_by_version` fails with `NotFound`.
(Negative version arguments are instead resolved by Python list indexing.) -/
theorem C7_not_found (s : Storage) (name : String) (v : Int)
    (hv : (storeList s name).length ≤ v) :
    (storeList s name = [] → get_latest_config s name = Except.error StoreErr.notFound) ∧
    get_config_by_version s name v = Except.error StoreErr.notFound := by
  constructor
  · intro hempty
    unfold get_latest_config
    unfold storeList at hempty
    cases hlook : dictLookup s name with
    | none => rfl
    | some l =>
        rw [hlook] at hempty
        simp at hempty
        simp [hempty]
  · unfold get_config_by_version
    cases hlook : dictLookup s name with
    | none => rfl
    | some l =>
        have : (l.length : Int) ≤ v := by
          unfold storeList at hv
          rw [hlook] at hv
          simpa using hv
        simp [this]

/-- Witness for C7 on the empty store at version 0. -/
theorem C7_not_found_witness :
    ((storeList Storage.empty "db").length : Int) ≤ 0 ∧
    ((storeList Storage.empty "db" = [] →
        get_latest_config Storage.empty "db" = Except.error StoreErr.notFound) ∧
      get_config_by_version Storage.empty "db" 0 = Except.error StoreErr.notFound) :=
  ⟨by decide, C7_not_found _ _ _ (by decide)⟩

/-- Claim C9: the in-memory store indexes by insertion order, ignoring each
record's own `version` field — after saving the records `cs` (with arbitrary
`version` fields) for one name from an empty store, the listed versions are
`[0, ..., n-1]` and `get_config_by_version` at `i` returns the `(i+1)`-th
record saved, whatever its `version` field says. -/
theorem C9_insertion_order (cs : List ConfigSchema) (name : String)
    (h : ∀ c ∈ cs, c.name = name) (i : Nat) (hi : i < cs.length) :
    list_config_versions (saveMany Storage.empty cs) name = List.range cs.length ∧
    get_config_by_version (saveMany Storage.empty cs) name (i : Int) =
      Except.ok (cs.get ⟨i, hi⟩) := by
  have hstore : storeList (saveMany Storage.empty cs) name = cs := by
    rw [storeList_saveMany _ _ _ h]
    simp [storeList, Storage.empty, dictLookup]
  constructor
  · rw [list_config_versions_eq_range, hstore]
  · have hlookup : dictLookup (saveMany Storage.empty cs) name = some cs := by
      unfold storeList at hstore
      cases hlook : dictLookup (saveMany Storage.empty cs) name with
      | none =>
          exfalso
          rw [hlook] at hstore
          simp at hstore
          subst hstore
          simp at hi
      | some l =>
          rw [hlook] at hstore
          simp at hstore
          rw [hstore]
    unfold get_config_by_version
    rw [hlookup]
    have hlt : ¬ ((cs.length : Int) ≤ (i : Int)) := by
      push_neg
      exact_mod_cast hi
    show (if (cs.length : Int) ≤ (i : Int) then Except.error StoreErr.notFound
      else pyIndex cs (i : Int)) = Except.ok (cs.get ⟨i, hi⟩)
    rw [if_neg hlt]
    unfold pyIndex
    rw [if_pos (by exact_mod_cast Nat.zero_le i)]
    simp [List.get?_eq_getElem?, List.getElem?_eq_getElem hi]

/-- Witness for C9: two saves under the name `"x"` with version fields 0 and
7; index 1 returns the second record saved (whose version field is 7). -/
theorem C9_insertion_order_witness :
    (∀ c ∈ [{ cDemo with name := "x" }, { cDemo with name := "x", version := 7 }], ConfigSchema.name c = "x") ∧
    (1 : Nat) < ([{ cDemo with name := "x" }, { cDemo with name := "x", version := 7 }] : List ConfigSchema).length ∧
    (list_config_versions
        (saveMany Storage.empty
          [{ cDemo with name := "x" }, { cDemo with name := "x", version := 7 }]) "x" =
      List.range
        ([{ cDemo with name := "x" }, { cDemo with name := "x", version := 7 }] : List ConfigSchema).length ∧
     get_config_by_version
        (saveMany Storage.empty
          [{ cDemo with name := "x" }, { cDemo with name := "x", version := 7 }]) "x" ((1 : Nat) : Int) =
      Except.ok (([{ cDemo with name := "x" }, { cDemo with name := "x", version := 7 }] : List ConfigSchema).get ⟨1, by decide⟩)) :=
  ⟨by decide, by decide, C9_insertion_order _ _ (by decide) 1 (by decide)⟩

/-- Counterexample to claim C1: in a single-node cluster (empty peer list)
the election leaves the node a Candidate, not a Leader, and no leader is
recorded — the majority check counts only peer grants, and `0 > 0 // 2`
fails. -/
theorem C1_counterexample :
    (_trigger_election (ConsensusNode.init "n1" [])).role = NodeRole.candidate ∧
    (_trigger_election (ConsensusNode.init "n1" [])).role ≠ NodeRole.leader ∧
    (_trigger_election (ConsensusNode.init "n1" [])).leader_id = none := by
  refine ⟨by decide, by decide, by decide⟩

/-- Claim C1 as amended: in a single-node cluster (empty peer list), when
the election timer fires the node requests zero peer votes, becomes a
Candidate with term 1 and a self-vote, but its self-vote is not counted and
zero grants is not a strict majority (`0 > 0 // 2` fails), so the node never
transitions to Leader and never records a leader, however many election
timeouts elapse. -/
theorem C1_single_node_never_leader (id : String) (k : Nat) :
    (_trigger_election (ConsensusNode.init id [])).role = NodeRole.candidate ∧
    (_trigger_election (ConsensusNode.init id [])).current_term = 1 ∧
    (_trigger_election (ConsensusNode.init id [])).voted_for = some id ∧
    (electionTick^[k] (ConsensusNode.init id [])).role ≠ NodeRole.leader ∧
    (electionTick^[k] (ConsensusNode.init id [])).leader_id = none := by
  have htrig : _trigger_election (ConsensusNode.init id []) =
      { ConsensusNode.init id [] with
        current_term := 1, role := NodeRole.candidate, voted_for := some id } := by
    simp [_trigger_election, electionStart, tallyVotes, voteRequests,
      _request_vote, ConsensusNode.init]
  have hiter : ∀ j : Nat,
      electionTick^[j] (ConsensusNode.init id []) = ConsensusNode.init id [] ∨
      electionTick^[j] (ConsensusNode.init id []) =
        { ConsensusNode.init id [] with
          current_term := 1, role := NodeRole.candidate, voted_for := some id } := by
    intro j
    induction j with
    | zero => left; rfl
    | succ j ih =>
        rw [Function.iterate_succ_apply']
        rcases ih with h | h <;> rw [h]
        · right
          have hrole : (ConsensusNode.init id []).role = NodeRole.follower := rfl
          rw [show electionTick (ConsensusNode.init id []) =
              _trigger_election (ConsensusNode.init id []) from by
            unfold electionTick
            rw [if_pos hrole]]
          exact htrig
        · right
          unfold electionTick
          rw [if_neg (by simp)]
  refine ⟨by rw [htrig], by rw [htrig], by rw [htrig], ?_, ?_⟩
  · rcases hiter k with h | h <;> rw [h] <;> simp [ConsensusNode.init]
  · rcases hiter k with h | h <;> rw [h] <;> simp [ConsensusNode.init]

/-- The reachable Candidate state of a single-node cluster after its first
election-timer expiry. -/
def candNode : ConsensusNode := electionTick (ConsensusNode.init "n1" [])

/-- Counterexample to claim C2: the election timer fires on a node whose
role is Candidate (reachable after one expiry in a single-node cluster, and
no heartbeat was ever received since the code never records one), yet the
node does not start an election — the state is unchanged and the term is not
incremented, because `_start_election_timer` only triggers when the role is
Follower. -/
theorem C2_counterexample :
    candNode.role = NodeRole.candidate ∧
    electionTick candNode = candNode ∧
    (electionTick candNode).current_term ≠ candNode.current_term + 1 := by
  refine ⟨by decide, by decide, by decide⟩

/-- Claim C2 as amended: for every expiry of the election timer while the
node's role is still Follower (expiry in any other role leaves the state
unchanged; receipt of heartbeats is never consulted), the node transitions
to Candidate, increments its term by exactly 1, votes for itself, and
issues vote requests to all peers concurrently. -/
theorem C2_follower_expiry_starts_election (n : ConsensusNode)
    (h : n.role = NodeRole.follower) :
    electionTick n = tallyVotes (electionStart n) ∧
    (electionStart n).role = NodeRole.candidate ∧
    (electionStart n).current_term = n.current_term + 1 ∧
    (electionStart n).voted_for = some n.node_id ∧
    voteRequests (electionStart n) = n.peers := by
  refine ⟨?_, rfl, rfl, rfl, rfl⟩
  unfold electionTick _trigger_election
  rw [if_pos h]

/-- Witness for C2 at a freshly initialised two-node cluster member. -/
theorem C2_follower_expiry_starts_election_witness :
    (ConsensusNode.init "a" ["b"]).role = NodeRole.follower ∧
    (electionTick (ConsensusNode.init "a" ["b"]) =
        tallyVotes (electionStart (ConsensusNode.init "a" ["b"])) ∧
      (electionStart (ConsensusNode.init "a" ["b"])).role = NodeRole.candidate ∧
      (electionStart (ConsensusNode.init "a" ["b"])).current_term =
        (ConsensusNode.init "a" ["b"]).current_term + 1 ∧
      (electionStart (ConsensusNode.init "a" ["b"])).voted_for =
        some (ConsensusNode.init "a" ["b"]).node_id ∧
      voteRequests (electionStart (ConsensusNode.init "a" ["b"])) =
        (ConsensusNode.init "a" ["b"]).peers) :=
  ⟨rfl, C2_follower_expiry_starts_election _ rfl⟩

/-- Claim C3: the current term is monotonically non-decreasing across every
`ConsensusNode` operation (election-timer tick, election trigger, heartbeat
send, propose, apply). -/
theorem C3_term_monotone (n : ConsensusNode) (s : Storage) (op : NodeOp) :
    n.current_term ≤ ((runOp n s op).1).current_term := by
  cases op with
  | electionTick =>
      show n.current_term ≤ (electionTick n).current_term
      unfold electionTick
      by_cases h : n.role = NodeRole.follower
      · rw [if_pos h]
        unfold _trigger_election
        rw [tallyVotes_current_term]
        exact Nat.le_succ _
      · rw [if_neg h]
  | triggerElection =>
      show n.current_term ≤ (_trigger_election n).current_term
      unfold _trigger_election
      rw [tallyVotes_current_term]
      exact Nat.le_succ _
  | sendHeartbeat => exact le_refl _
  | propose c => exact le_refl _
  | applyC c => exact le_refl _

/-- Claim C10: `propose_config` and `apply_config` never propagate a storage
exception — over any backend whose save raises (`Except.error`), both absorb
the error and return `False`, leaving the caller-visible state unchanged. -/
theorem C10_exceptions_absorbed {σ ε : Type}
    (backendSave : σ → ConfigSchema → Except ε σ) (n : ConsensusNode)
    (st : σ) (c : ConfigSchema) (e : ε)
    (h : backendSave st c = Except.error e) :
    apply_configAbs backendSave st c = (st, false) ∧
    propose_configAbs backendSave n st c = (st, false) := by
  constructor
  · unfold apply_configAbs
    rw [h]
  · unfold propose_configAbs
    by_cases hr : n.role ≠ NodeRole.leader
    · rw [if_pos hr]
    · rw [if_neg hr, h]

/-- Witness for C10 with a backend that always raises. -/
theorem C10_exceptions_absorbed_witness :
    (fun (_ : Unit) (_ : ConfigSchema) => (Except.error () : Except Unit Unit)) () cDemo =
      Except.error () ∧
    (apply_configAbs (fun (_ : Unit) (_ : ConfigSchema) => (Except.error () : Except Unit Unit))
        () cDemo = ((), false) ∧
      propose_configAbs (fun (_ : Unit) (_ : ConfigSchema) => (Except.error () : Except Unit Unit))
        (ConsensusNode.init "a" []) () cDemo = ((), false)) :=
  ⟨rfl, C10_exceptions_absorbed _ _ _ _ () rfl⟩

/-- Claim C8: a subscription created by `watch_config` receives exactly the
versions committed (by `set_config`) for its name after the subscribe call,
in commit order, and none committed before — whatever the manager's prior
history `m` was, the new queue ends up holding exactly the post-subscribe
commits whose name matches. -/
theorem C8_watch_delivery (m : ConfigManager) (name : String)
    (cs : List ConfigSchema) :
    queueAt (setMany (watch_config m name).1 cs) name (watch_config m name).2 =
      some (cs.filter (fun c => c.name == name)) := by
  have h0 := queueAt_watch m name
  have h1 := queueAt_setMany (watch_config m name).1 cs name
    (watch_config m name).2 [] h0
  simpa using h1
